import Mathlib

/-!
Verification development for the StockWatch web backend.

This file gives a shallow embedding of the route handlers, row decoders and
the procedure gateway of the repository (src/app/routes/... and
src/app/utils/db.py) and proves or refutes the frozen claims about them.

Modelling conventions:
* Stored-procedure result rows are lists of scalar `Value`s; JSON response
  bodies are `J` trees.
* Python exceptions are the `PyErr` type; a handler body that can raise is a
  `Except PyErr` computation, and the broad `except Exception` at a handler
  boundary is the wrapper that maps any error to the handler's generic 500.
* Database and payment-collaborator outcomes are inputs to the handler
  functions (the handler is a pure function of the request and of the
  procedure results it would observe).
* Numeric values are rationals; Python `float` arithmetic on the small
  integer amounts appearing here is exact, so `ℚ` is a faithful model.
-/

/-- Scalar values as they appear in stored-procedure result rows:
strings, integers, numerics (DECIMAL and float, modelled as `ℚ`),
datetimes (carrying an abstract timestamp), booleans, and SQL NULL /
Python `None`. -/
inductive Value where
  | s (v : String)
  | i (v : Int)
  | q (v : ℚ)
  | dt (v : Nat)
  | b (v : Bool)
  | null
deriving DecidableEq, Repr

/-- Python truthiness of a scalar: empty string, zero, `False` and `None`
are falsy; `datetime` objects are always truthy. -/
def truthy : Value → Bool
  | .s v => v != ""
  | .i v => v != 0
  | .q v => v != 0
  | .dt _ => true
  | .b v => v
  | .null => false

/-- JSON trees, the shape of a `jsonify` response body. -/
inductive J where
  | null
  | str (s : String)
  | int (n : Int)
  | num (q : ℚ)
  | bool (b : Bool)
  | arr (xs : List J)
  | obj (fs : List (String × J))
deriving Repr

/-- Abstract, injective rendering of `datetime.isoformat()`. -/
def isoRender (t : Nat) : String := "iso-" ++ toString t

/-- Serialisation of a scalar by `jsonify`. -/
def toJ : Value → J
  | .s v => J.str v
  | .i v => J.int v
  | .q v => J.num v
  | .dt v => J.str (isoRender v)
  | .b v => J.bool v
  | .null => J.null

/-- An HTTP response: status code and JSON body. -/
structure Resp where
  status : Nat
  body : J
deriving Repr

/-- Python exception classes relevant to the handlers. -/
inductive PyErr where
  | indexError
  | typeError
  | valueError
  | attributeError
deriving DecidableEq, Repr

/-- Row indexing `row[i]`: raises `IndexError` when out of range. -/
def pyGet (row : List Value) (i : Nat) : Except PyErr Value :=
  match row[i]? with
  | some v => .ok v
  | none => .error .indexError

/-- Python `float(x)` on a row scalar.  Numerics and booleans convert;
`None` and `datetime` raise `TypeError`.  Strings raise `ValueError` when
non-numeric; the result rows carry DECIMAL columns as numerics, so the
string case is modelled as the failing one. -/
def pyFloat : Value → Except PyErr ℚ
  | .i v => .ok (v : ℚ)
  | .q v => .ok v
  | .b v => .ok (if v then 1 else 0)
  | .s _ => .error .valueError
  | .dt _ => .error .typeError
  | .null => .error .typeError

/-- The idiom `float(x) if x else None` used by the row decoders. -/
def floatIfTruthy (v : Value) : Except PyErr J :=
  if truthy v then do
    let q ← pyFloat v
    return J.num q
  else
    return J.null

/-- The idiom `x.isoformat() if x else None`: only a datetime has the
method; a truthy non-datetime raises `AttributeError`. -/
def isoIfTruthy (v : Value) : Except PyErr J :=
  if truthy v then
    match v with
    | .dt t => .ok (J.str (isoRender t))
    | _ => .error .attributeError
  else
    .ok J.null

/-- The idiom `x if x else ''`. -/
def valueOrEmptyStr (v : Value) : J :=
  if truthy v then toJ v else J.str ""

/-- The idiom `x if x else 0`. -/
def valueOrZero (v : Value) : J :=
  if truthy v then toJ v else J.int 0

/-- The idiom `bool(x) if x is not None else False`. -/
def boolOrFalse (v : Value) : Bool :=
  if v = Value.null then false else truthy v

/-- Python `str.strip()`: drop leading and trailing whitespace. -/
def pyStrip (s : String) : String :=
  String.mk (((s.data.dropWhile Char.isWhitespace).reverse.dropWhile
    Char.isWhitespace).reverse)

/-- Python `str.lower()` (ASCII case folding suffices here). -/
def pyLower (s : String) : String := String.mk (s.data.map Char.toLower)

/-- Python `str(x)` on a row scalar. -/
def pyStr : Value → String
  | .s v => v
  | .i v => toString v
  | .q v => toString v
  | .dt v => isoRender v
  | .b v => if v then "True" else "False"
  | .null => "None"

/-- Decimal parse of a digit sequence. -/
def parseNatChars (cs : List Char) : Option Nat :=
  if cs.isEmpty then none
  else if cs.all Char.isDigit then
    some (cs.foldl (fun acc c => acc * 10 + (c.toNat - 48)) 0)
  else none

/-- Python `int(s)` on a string: strips surrounding whitespace, then
parses an optionally signed decimal integer; `none` models the
`ValueError` that the handlers catch. -/
def pyInt (s : String) : Option Int :=
  match (pyStrip s).data with
  | [] => none
  | '-' :: rest => (parseNatChars rest).map (fun n => -(n : Int))
  | '+' :: rest => (parseNatChars rest).map (fun n => (n : Int))
  | cs => (parseNatChars cs).map (fun n => (n : Int))

/-!
## Procedure Gateway (src/app/utils/db.py, `Database.call_procedure`)

The session operations performed by one call are recorded as a trace.
The call's environment fixes what the database would do: the outcome of
`execute(...).fetchall()` and the outcome of `commit()`.
-/

/-- Session operations performed by `Database.call_procedure`. -/
inductive DbOp where
  | execute
  | commit
  | rollback
  | close
deriving DecidableEq, Repr

/-- Environment of one gateway call: what `execute(...).fetchall()` and
`commit()` would return or raise (errors carry the exception text). -/
structure ProcEnv where
  fetchResult : Except String (List (List Value))
  commitResult : Except String Unit

/-- Model of `Database.call_procedure` (src/app/utils/db.py lines 36-56):
execute and fetch, commit, return the raw rows; on any exception roll back
and re-raise it (the bare `raise`); the `finally` block always closes the
session last. -/
def call_procedure (env : ProcEnv) :
    Except String (List (List Value)) × List DbOp :=
  match env.fetchResult with
  | .error e => (.error e, [DbOp.execute, DbOp.rollback, DbOp.close])
  | .ok rows =>
    match env.commitResult with
    | .error e =>
        (.error e, [DbOp.execute, DbOp.commit, DbOp.rollback, DbOp.close])
    | .ok _ => (.ok rows, [DbOp.execute, DbOp.commit, DbOp.close])

/-- C5 counterexample: the gateway does not substitute a generic
data-access error on failure — it re-raises the original exception
unchanged, so two different failures propagate two different errors. -/
theorem C5_counterexample :
    (call_procedure ⟨Except.error "deadlock detected", Except.ok ()⟩).fst =
      Except.error "deadlock detected" ∧
    (call_procedure ⟨Except.error "connection refused", Except.ok ()⟩).fst =
      Except.error "connection refused" ∧
    ("deadlock detected" : String) ≠ "connection refused" := by
  refine ⟨rfl, rfl, by decide⟩

/-- C5 amended: on success the gateway commits and returns the raw rows;
on any failure it rolls back and re-raises the original exception
unchanged; in every case the session close is the last operation before
the call returns or propagates. -/
theorem C5_amended_thm :
    (∀ rows, call_procedure ⟨Except.ok rows, Except.ok ()⟩ =
      (Except.ok rows, [DbOp.execute, DbOp.commit, DbOp.close])) ∧
    (∀ e cr, call_procedure ⟨Except.error e, cr⟩ =
      (Except.error e, [DbOp.execute, DbOp.rollback, DbOp.close])) ∧
    (∀ rows e, call_procedure ⟨Except.ok rows, Except.error e⟩ =
      (Except.error e,
        [DbOp.execute, DbOp.commit, DbOp.rollback, DbOp.close])) ∧
    (∀ env, (call_procedure env).snd.getLast? = some DbOp.close) := by
  refine ⟨fun rows => rfl, fun e cr => rfl, fun rows e => rfl, fun env => ?_⟩
  rcases env with ⟨fr, cr⟩
  cases fr with
  | error e => rfl
  | ok rows => cases cr with
    | error e => rfl
    | ok u => rfl

/-!
## Product Row Decoders (src/app/routes/dashboard/route.py, `get_user_products`)

The per-row decoding logic of `get_user_products` (lines 115-206).  Each
dict literal of the source is a monadic builder evaluating its entries in
order, so an out-of-range access raises exactly where the source does.
-/

/-- The enhanced mapping (lines 130-147): applied when `len(row) > 15` and
`row[0] == 'success'`.  Note the unguarded accesses at positions 11-16. -/
def decode_enhanced_success (row : List Value) :
    Except PyErr (List (String × J)) := do
  let idv ← pyGet row 2
  let urlv ← pyGet row 3
  let titlev ← pyGet row 4
  let storev ← pyGet row 5
  let cp ← floatIfTruthy (← pyGet row 6)
  let minp ← floatIfTruthy (← pyGet row 7)
  let maxp ← floatIfTruthy (← pyGet row 8)
  let wh := valueOrEmptyStr (← pyGet row 9)
  let alerts := valueOrZero (← pyGet row 10)
  let st ← pyGet row 11
  let lca ← isoIfTruthy (← pyGet row 12)
  let lpc ← isoIfTruthy (← pyGet row 13)
  let sms ← pyGet row 14
  let ca ← isoIfTruthy (← pyGet row 15)
  let ua ← isoIfTruthy (← pyGet row 16)
  let phc : J := match row[17]? with
    | some v => toJ v
    | none => J.int 0
  return [("id", toJ idv), ("url", toJ urlv), ("title", toJ titlev),
    ("store", toJ storev), ("current_price", cp), ("min_price_alert", minp),
    ("max_price_alert", maxp), ("discord_webhook_url", wh),
    ("alerts_sent", alerts), ("status", toJ st), ("last_checked_at", lca),
    ("last_price_change", lpc),
    ("sms_notifications_enabled", J.bool (boolOrFalse sms)),
    ("created_at", ca), ("updated_at", ua), ("price_history_count", phc)]

/-- The alternate enhanced mapping (lines 151-167): applied when
`len(row) > 15` but `row[0] != 'success'`.  Most accesses are
length-guarded. -/
def decode_enhanced_alt (row : List Value) :
    Except PyErr (List (String × J)) := do
  let idv ← pyGet row 0
  let urlv ← pyGet row 1
  let titlev ← pyGet row 2
  let storev ← pyGet row 3
  let cp ← floatIfTruthy (← pyGet row 4)
  let minp ← floatIfTruthy (← pyGet row 5)
  let maxp ← floatIfTruthy (← pyGet row 6)
  let wh : J := match row[7]? with
    | some v => valueOrEmptyStr v
    | none => J.str ""
  let st : J := match row[8]? with
    | some v => toJ v
    | none => J.str "checking"
  let lca ← match row[9]? with
    | some v => isoIfTruthy v
    | none => pure J.null
  let lpc ← match row[10]? with
    | some v => isoIfTruthy v
    | none => pure J.null
  let alerts : J := match row[11]? with
    | some v => valueOrZero v
    | none => J.int 0
  let ca ← match row[12]? with
    | some v => isoIfTruthy v
    | none => pure J.null
  let ua ← match row[13]? with
    | some v => isoIfTruthy v
    | none => pure J.null
  let phc : J := match row[14]? with
    | some v => toJ v
    | none => J.int 0
  return [("id", toJ idv), ("url", toJ urlv), ("title", toJ titlev),
    ("store", toJ storev), ("current_price", cp), ("min_price_alert", minp),
    ("max_price_alert", maxp), ("discord_webhook_url", wh), ("status", st),
    ("last_checked_at", lca), ("last_price_change", lpc),
    ("alerts_sent", alerts), ("created_at", ca), ("updated_at", ua),
    ("price_history_count", phc)]

/-- The old-procedure mapping (lines 180-196): applied when
`10 < len(row) ≤ 15`.  `created_at` is taken from position 11. -/
def decode_old (row : List Value) : Except PyErr (List (String × J)) := do
  let idv ← pyGet row 0
  let urlv ← pyGet row 1
  let titlev ← pyGet row 2
  let storev ← pyGet row 3
  let cp ← floatIfTruthy (← pyGet row 4)
  let minp ← floatIfTruthy (← pyGet row 5)
  let maxp ← floatIfTruthy (← pyGet row 6)
  let st ← pyGet row 7
  let lca ← isoIfTruthy (← pyGet row 8)
  let lpc ← isoIfTruthy (← pyGet row 9)
  let alerts := valueOrZero (← pyGet row 10)
  let ca ← isoIfTruthy (← pyGet row 11)
  let ua ← isoIfTruthy (← pyGet row 12)
  let phc : J := match row[13]? with
    | some v => toJ v
    | none => J.int 0
  return [("id", toJ idv), ("url", toJ urlv), ("title", toJ titlev),
    ("store", toJ storev), ("current_price", cp), ("min_price_alert", minp),
    ("max_price_alert", maxp), ("discord_webhook_url", J.str ""),
    ("status", toJ st), ("last_checked_at", lca),
    ("last_price_change", lpc), ("alerts_sent", alerts),
    ("created_at", ca), ("updated_at", ua), ("price_history_count", phc)]

/-- The status-only sentinel check (line 120): a two-value row
`('success', 'Products retrieved successfully')`. -/
def isStatusRow (row : List Value) : Bool :=
  decide (row.length ≥ 2) &&
    decide (row[0]? = some (Value.s "success")) &&
    decide (row[1]? = some (Value.s "Products retrieved successfully")) &&
    decide (row.length = 2)

/-- Outcome of the per-row dispatch inside the product-parsing loop. -/
inductive RowOutcome where
  | statusRow
  | product (fields : List (String × J))
  | parseSkip (e : PyErr)
  | shortSkip
deriving Repr

/-- One iteration of the parsing loop (lines 115-206): skip the sentinel;
rows longer than 15 use the enhanced mappings (dispatching on
`row[0] == 'success'`), rows longer than 10 use the old mapping; an
`IndexError`, `TypeError` or `ValueError` inside a mapping skips the row,
any other exception propagates out of the handler. -/
def process_product_row (row : List Value) : Except PyErr RowOutcome :=
  if isStatusRow row then
    .ok .statusRow
  else if row.length > 15 then
    match (if row[0]? = some (Value.s "success") then
            decode_enhanced_success row
          else
            decode_enhanced_alt row) with
    | .ok fields => .ok (.product fields)
    | .error .indexError => .ok (.parseSkip .indexError)
    | .error .typeError => .ok (.parseSkip .typeError)
    | .error .valueError => .ok (.parseSkip .valueError)
    | .error e => .error e
  else if row.length > 10 then
    match decode_old row with
    | .ok fields => .ok (.product fields)
    | .error .indexError => .ok (.parseSkip .indexError)
    | .error .typeError => .ok (.parseSkip .typeError)
    | .error .valueError => .ok (.parseSkip .valueError)
    | .error e => .error e
  else
    .ok .shortSkip

/-- The full parsing loop: the products list accumulated over the result
rows, with uncaught exceptions propagating. -/
def parse_products : List (List Value) →
    Except PyErr (List (List (String × J)))
  | [] => .ok []
  | row :: rest => do
    let outcome ← process_product_row row
    let tail ← parse_products rest
    match outcome with
    | .product p => return p :: tail
    | _ => return tail

/-- Bind of a successful `Except` computation. -/
theorem except_bind_ok {α β : Type} (a : α) (f : α → Except PyErr β) :
    (Except.ok a >>= f) = f a := rfl

/-- Bind of a failed `Except` computation. -/
theorem except_bind_err {α β : Type} (e : PyErr) (f : α → Except PyErr β) :
    ((Except.error e : Except PyErr α) >>= f) = Except.error e := rfl

/-- Map over a successful `Except` computation. -/
theorem except_map_ok {α β : Type} (f : α → β) (a : α) :
    (f <$> (Except.ok a : Except PyErr α)) = Except.ok (f a) := rfl

/-- Map over a failed `Except` computation. -/
theorem except_map_err {α β : Type} (f : α → β) (e : PyErr) :
    (f <$> (Except.error e : Except PyErr α)) = Except.error e := rfl

/-- Field lookup in a decoded product. -/
def fieldOf (r : Except PyErr RowOutcome) (k : String) : Option J :=
  match r with
  | .ok (.product fields) => fields.lookup k
  | _ => none

/-- A well-typed product row of length 16 starting with `'success'`
(status, message, then id, url, title, store, price, two alert bounds,
webhook, alert counter, status string, two datetimes, SMS flag and one
final datetime). -/
def sampleRow16 : List Value :=
  [Value.s "success", Value.s "msg", Value.i 1, Value.s "https://a",
   Value.s "T", Value.s "Amazon", Value.q 5, Value.null, Value.null,
   Value.s "", Value.i 3, Value.s "in-stock", Value.dt 1, Value.dt 2,
   Value.b true, Value.dt 3]

/-- A well-typed product row of length 14 whose first value is not
`'success'`; positions 11 and 12 carry the distinguishable datetimes
`dt 6` and `dt 7`. -/
def sampleRow14 : List Value :=
  [Value.i 7, Value.s "https://b", Value.s "T2", Value.s "eBay", Value.q 3,
   Value.null, Value.null, Value.s "checking", Value.dt 4, Value.dt 5,
   Value.i 2, Value.dt 6, Value.dt 7, Value.i 0]

/-- C1 counterexample: a row of length 16 beginning with `'success'` is
not decoded into a product at all — the enhanced mapping's unguarded
access at position 16 raises `IndexError` and the row is skipped; and a
row of length 14 with a non-`'success'` first value is decoded by the OLD
mapping, whose `created_at` comes from position 11 (`dt 6`), not from
position 12 (`dt 7`) as the alternate enhanced mapping would give. -/
theorem C1_counterexample :
    process_product_row sampleRow16 =
      Except.ok (RowOutcome.parseSkip PyErr.indexError) ∧
    fieldOf (process_product_row sampleRow14) "created_at" =
      some (J.str (isoRender 6)) ∧
    isoRender 6 ≠ isoRender 7 := by
  refine ⟨rfl, rfl, by decide⟩

/-- C1 amended: (1) a `'success'` row of length 17 decodes with the
enhanced mapping, taking `status` from position 11 and `created_at` from
position 15; (2) a `'success'` row of length 16 is skipped with an
`IndexError` (the mapping reads the unguarded position 16); (3) a row of
length 14 — whatever its first value — decodes with the old mapping,
taking `created_at` from position 11. -/
theorem C1_amended_thm :
    (∀ (m : String) (idv urlv titlev storev wh al st sms : Value)
       (cp minp maxp lca lpc ca ua : Value)
       (jcp jminp jmaxp jlca jlpc jca jua : J),
       floatIfTruthy cp = Except.ok jcp →
       floatIfTruthy minp = Except.ok jminp →
       floatIfTruthy maxp = Except.ok jmaxp →
       isoIfTruthy lca = Except.ok jlca →
       isoIfTruthy lpc = Except.ok jlpc →
       isoIfTruthy ca = Except.ok jca →
       isoIfTruthy ua = Except.ok jua →
       process_product_row [Value.s "success", Value.s m, idv, urlv,
         titlev, storev, cp, minp, maxp, wh, al, st, lca, lpc, sms, ca,
         ua] =
         Except.ok (RowOutcome.product
           [("id", toJ idv), ("url", toJ urlv), ("title", toJ titlev),
            ("store", toJ storev), ("current_price", jcp),
            ("min_price_alert", jminp), ("max_price_alert", jmaxp),
            ("discord_webhook_url", valueOrEmptyStr wh),
            ("alerts_sent", valueOrZero al), ("status", toJ st),
            ("last_checked_at", jlca), ("last_price_change", jlpc),
            ("sms_notifications_enabled", J.bool (boolOrFalse sms)),
            ("created_at", jca), ("updated_at", jua),
            ("price_history_count", J.int 0)])) ∧
    (∀ (m : String) (idv urlv titlev storev wh al st sms : Value)
       (cp minp maxp lca lpc ca : Value)
       (jcp jminp jmaxp jlca jlpc jca : J),
       floatIfTruthy cp = Except.ok jcp →
       floatIfTruthy minp = Except.ok jminp →
       floatIfTruthy maxp = Except.ok jmaxp →
       isoIfTruthy lca = Except.ok jlca →
       isoIfTruthy lpc = Except.ok jlpc →
       isoIfTruthy ca = Except.ok jca →
       process_product_row [Value.s "success", Value.s m, idv, urlv,
         titlev, storev, cp, minp, maxp, wh, al, st, lca, lpc, sms, ca] =
         Except.ok (RowOutcome.parseSkip PyErr.indexError)) ∧
    (∀ (idv urlv titlev storev st0 al phc : Value)
       (cp minp maxp lca lpc ca ua : Value)
       (jcp jminp jmaxp jlca jlpc jca jua : J),
       floatIfTruthy cp = Except.ok jcp →
       floatIfTruthy minp = Except.ok jminp →
       floatIfTruthy maxp = Except.ok jmaxp →
       isoIfTruthy lca = Except.ok jlca →
       isoIfTruthy lpc = Except.ok jlpc →
       isoIfTruthy ca = Except.ok jca →
       isoIfTruthy ua = Except.ok jua →
       process_product_row [idv, urlv, titlev, storev, cp, minp, maxp,
         st0, lca, lpc, al, ca, ua, phc] =
         Except.ok (RowOutcome.product
           [("id", toJ idv), ("url", toJ urlv), ("title", toJ titlev),
            ("store", toJ storev), ("current_price", jcp),
            ("min_price_alert", jminp), ("max_price_alert", jmaxp),
            ("discord_webhook_url", J.str ""), ("status", toJ st0),
            ("last_checked_at", jlca), ("last_price_change", jlpc),
            ("alerts_sent", valueOrZero al), ("created_at", jca),
            ("updated_at", jua), ("price_history_count", toJ phc)])) := by
  refine ⟨?_, ?_, ?_⟩
  · intro m idv urlv titlev storev wh al st sms cp minp maxp lca lpc ca ua
      jcp jminp jmaxp jlca jlpc jca jua h1 h2 h3 h4 h5 h6 h7
    simp [process_product_row, isStatusRow, decode_enhanced_success,
      pyGet, except_bind_ok, except_bind_err, except_map_ok,
      except_map_err, h1, h2, h3, h4, h5, h6, h7]
  · intro m idv urlv titlev storev wh al st sms cp minp maxp lca lpc ca
      jcp jminp jmaxp jlca jlpc jca h1 h2 h3 h4 h5 h6
    simp [process_product_row, isStatusRow, decode_enhanced_success,
      pyGet, except_bind_ok, except_bind_err, except_map_ok,
      except_map_err, h1, h2, h3, h4, h5, h6]
  · intro idv urlv titlev storev st0 al phc cp minp maxp lca lpc ca ua
      jcp jminp jmaxp jlca jlpc jca jua h1 h2 h3 h4 h5 h6 h7
    simp [process_product_row, isStatusRow, decode_old,
      pyGet, except_bind_ok, except_bind_err, except_map_ok,
      except_map_err, h1, h2, h3, h4, h5, h6, h7]

/-- Witness for the amended C1 theorem at concrete rows of lengths 17, 16
and 14. -/
theorem C1_amended_witness :
    process_product_row [Value.s "success", Value.s "ok", Value.i 1,
      Value.s "u", Value.s "t", Value.s "shop", Value.q 5, Value.null,
      Value.null, Value.s "", Value.i 0, Value.s "in-stock", Value.dt 1,
      Value.dt 2, Value.b true, Value.dt 3, Value.dt 4] =
      Except.ok (RowOutcome.product
        [("id", toJ (Value.i 1)), ("url", toJ (Value.s "u")),
         ("title", toJ (Value.s "t")), ("store", toJ (Value.s "shop")),
         ("current_price", J.num 5), ("min_price_alert", J.null),
         ("max_price_alert", J.null),
         ("discord_webhook_url", valueOrEmptyStr (Value.s "")),
         ("alerts_sent", valueOrZero (Value.i 0)),
         ("status", toJ (Value.s "in-stock")),
         ("last_checked_at", J.str (isoRender 1)),
         ("last_price_change", J.str (isoRender 2)),
         ("sms_notifications_enabled", J.bool (boolOrFalse (Value.b true))),
         ("created_at", J.str (isoRender 3)),
         ("updated_at", J.str (isoRender 4)),
         ("price_history_count", J.int 0)]) ∧
    process_product_row [Value.s "success", Value.s "ok", Value.i 1,
      Value.s "u", Value.s "t", Value.s "shop", Value.q 5, Value.null,
      Value.null, Value.s "", Value.i 0, Value.s "in-stock", Value.dt 1,
      Value.dt 2, Value.b true, Value.dt 3] =
      Except.ok (RowOutcome.parseSkip PyErr.indexError) ∧
    process_product_row [Value.i 7, Value.s "u2", Value.s "t2",
      Value.s "shop2", Value.q 3, Value.null, Value.null,
      Value.s "checking", Value.dt 4, Value.dt 5, Value.i 2, Value.dt 6,
      Value.dt 7, Value.i 0] =
      Except.ok (RowOutcome.product
        [("id", toJ (Value.i 7)), ("url", toJ (Value.s "u2")),
         ("title", toJ (Value.s "t2")), ("store", toJ (Value.s "shop2")),
         ("current_price", J.num 3), ("min_price_alert", J.null),
         ("max_price_alert", J.null), ("discord_webhook_url", J.str ""),
         ("status", toJ (Value.s "checking")),
         ("last_checked_at", J.str (isoRender 4)),
         ("last_price_change", J.str (isoRender 5)),
         ("alerts_sent", valueOrZero (Value.i 2)),
         ("created_at", J.str (isoRender 6)),
         ("updated_at", J.str (isoRender 7)),
         ("price_history_count", toJ (Value.i 0))]) :=
  ⟨C1_amended_thm.1 "ok" (Value.i 1) (Value.s "u") (Value.s "t")
    (Value.s "shop") (Value.s "") (Value.i 0) (Value.s "in-stock")
    (Value.b true) (Value.q 5) Value.null Value.null (Value.dt 1)
    (Value.dt 2) (Value.dt 3) (Value.dt 4) (J.num 5) J.null J.null
    (J.str (isoRender 1)) (J.str (isoRender 2)) (J.str (isoRender 3))
    (J.str (isoRender 4)) rfl rfl rfl rfl rfl rfl rfl,
   C1_amended_thm.2.1 "ok" (Value.i 1) (Value.s "u") (Value.s "t")
    (Value.s "shop") (Value.s "") (Value.i 0) (Value.s "in-stock")
    (Value.b true) (Value.q 5) Value.null Value.null (Value.dt 1)
    (Value.dt 2) (Value.dt 3) (J.num 5) J.null J.null
    (J.str (isoRender 1)) (J.str (isoRender 2)) (J.str (isoRender 3))
    rfl rfl rfl rfl rfl rfl,
   C1_amended_thm.2.2 (Value.i 7) (Value.s "u2") (Value.s "t2")
    (Value.s "shop2") (Value.s "checking") (Value.i 2) (Value.i 0)
    (Value.q 3) Value.null Value.null (Value.dt 4) (Value.dt 5)
    (Value.dt 6) (Value.dt 7) (J.num 3) J.null J.null
    (J.str (isoRender 4)) (J.str (isoRender 5)) (J.str (isoRender 6))
    (J.str (isoRender 7)) rfl rfl rfl rfl rfl rfl rfl⟩

/-!
## Authentication handlers (src/app/routes/auth/route.py)
-/

/-- Characters admitted by the class `[^\s@]` of the email regex. -/
def emailOkChar (c : Char) : Bool := !c.isWhitespace && c != '@'

/-- Model of `validate_email`: the anchored regex
`[^\s@]+@[^\s@]+\.[^\s@]+` — a nonempty `@`-free, space-free local part,
one `@`, and a domain containing a dot that is neither its first nor its
last character. -/
def validate_email (email : String) : Bool :=
  let cs := email.data
  let before := cs.takeWhile (fun c => c != '@')
  match cs.dropWhile (fun c => c != '@') with
  | [] => false
  | _ :: after =>
    !before.isEmpty && before.all emailOkChar &&
    !after.isEmpty && after.all emailOkChar &&
    ((after.drop 1).dropLast.contains '.')

/-- Model of `validate_password` (lines 34-42): at least 8 characters, at
least one ASCII letter (`[A-Za-z]`), at least one decimal digit (`\d`);
returns the validity flag and the message. -/
def validate_password (password : String) : Bool × String :=
  if password.length < 8 then
    (false, "Password must be at least 8 characters long")
  else if !(password.data.any (fun c => c.isAlpha)) then
    (false, "Password must contain at least one letter")
  else if !(password.data.any (fun c => c.isDigit)) then
    (false, "Password must contain at least one number")
  else (true, "Password is valid")

/-- The JSON body of a registration request, after `data.get` defaults. -/
structure RegBody where
  fullName : String
  email : String
  password : String
  newsletter : Bool

/-- Model of the `register` handler (lines 44-124).  `hashFn` is the
`generate_password_hash` collaborator; `create_result` is what the
`create_user_account` procedure would return.  The boolean of the result
records whether `create_user_account` was invoked. -/
def register (hashFn : String → String) (data : Option RegBody)
    (create_result : List (List Value)) : Except PyErr (Resp × Bool) :=
  match data with
  | none => .ok (⟨400, J.obj [("error", J.str "No data provided")]⟩, false)
  | some d =>
    let full_name := pyStrip d.fullName
    let email := pyLower (pyStrip d.email)
    if full_name = "" ∨ full_name.length < 2 then
      .ok (⟨400, J.obj [("error", J.str
        "Full name is required and must be at least 2 characters")]⟩,
        false)
    else if email = "" ∨ !(validate_email email) then
      .ok (⟨400, J.obj [("error", J.str
        "Valid email address is required")]⟩, false)
    else if !(validate_password d.password).fst then
      .ok (⟨400, J.obj [("error",
        J.str (validate_password d.password).snd)]⟩, false)
    else
      let _password_hash := hashFn d.password
      match create_result with
      | [] => .ok (⟨500, J.obj [("error", J.str
          "Registration failed - no response from database")]⟩, true)
      | row :: _ => do
        let status ← pyGet row 0
        let message ← pyGet row 1
        if status ≠ Value.s "success" then
          return (⟨400, J.obj [("error", toJ message)]⟩, true)
        else
          return (⟨201, J.obj [("message", J.str
            "Account created successfully"),
            ("user", J.obj [("email", J.str email),
              ("full_name", J.str full_name)])]⟩, true)

/-- The JSON body of a login request, after `data.get` defaults. -/
structure LoginBody where
  email : String
  password : String

/-- An issued access token: the string identity and the additional
claims embedded at issuance. -/
structure AccessToken where
  identity : String
  email : String
  full_name : Value
  email_verified : Bool
deriving Repr

/-- Abstract rendering of the signed JWT string. -/
def tokenRender (t : AccessToken) : String :=
  "jwt." ++ t.identity ++ "." ++ t.email ++ "." ++ pyStr t.full_name ++
    "." ++ (if t.email_verified then "T" else "F")

/-- Result of the `login` handler: the HTTP response, the issued access
token (with its claims) and the refresh-token identity, when issued. -/
structure LoginOutcome where
  resp : Resp
  accessToken : Option AccessToken
  refreshIdentity : Option String
deriving Repr

/-- The uniform invalid-credentials response of `login`. -/
def invalidCredentialsResp : Resp :=
  ⟨401, J.obj [("error", J.str "Invalid email or password")]⟩

/-- Model of the `login` handler (lines 126-247).  `chk` is the
`check_password_hash` collaborator applied to the stored hash value and
the submitted password; `verify_result` is what `verify_user_login`
returns; `last_login` is the outcome of the `update_user_last_login`
call made on success. -/
def login (chk : Value → String → Bool) (data : Option LoginBody)
    (verify_result : List (List Value))
    (last_login : Except PyErr (List (List Value))) :
    Except PyErr LoginOutcome :=
  match data with
  | none => .ok ⟨⟨400, J.obj [("error", J.str "No data provided")]⟩,
      none, none⟩
  | some d =>
    let email := pyLower (pyStrip d.email)
    let password := d.password
    if email = "" ∨ password = "" then
      .ok ⟨⟨400, J.obj [("error", J.str
        "Email and password are required")]⟩, none, none⟩
    else
      match verify_result with
      | [] => .ok ⟨invalidCredentialsResp, none, none⟩
      | row :: _ => do
        let status ← pyGet row 0
        let _message ← pyGet row 1
        if status ≠ Value.s "success" then
          return ⟨invalidCredentialsResp, none, none⟩
        else do
          let user_id ← pyGet row 2
          let stored_hash ← pyGet row 3
          let full_name ← pyGet row 4
          let email_verified ← pyGet row 5
          let is_active ← pyGet row 6
          if !(chk stored_hash password) then
            return ⟨invalidCredentialsResp, none, none⟩
          else if !(truthy is_active) then
            return ⟨⟨401, J.obj [("error", J.str
              "Account is deactivated. Please contact support.")]⟩,
              none, none⟩
          else do
            let user_id_str := pyStr user_id
            let tok : AccessToken :=
              ⟨user_id_str, email, full_name, truthy email_verified⟩
            let _ ← last_login
            return ⟨⟨200, J.obj [("message", J.str "Login successful"),
              ("access_token", J.str (tokenRender tok)),
              ("refresh_token", J.str ("jwt.refresh." ++ user_id_str)),
              ("user", J.obj [("id", toJ user_id),
                ("email", J.str email), ("full_name", toJ full_name),
                ("email_verified", J.bool (truthy email_verified))])]⟩,
              some tok, some user_id_str⟩

/-- Model of the `verify_token` handler (lines 324-407).  `identity` is
what `get_jwt_identity()` returns for the presented access token;
`get_user_result` is what `get_user_by_id` returns. -/
def verify_token (identity : Option String)
    (get_user_result : List (List Value)) : Except PyErr Resp :=
  match identity with
  | none => .ok ⟨401, J.obj [("error", J.str "Invalid token identity")]⟩
  | some ids =>
    match pyInt ids with
    | none => .ok ⟨401, J.obj [("error", J.str
        "Invalid user ID format")]⟩
    | some uid =>
      match get_user_result with
      | [] => .ok ⟨404, J.obj [("error", J.str "User not found")]⟩
      | row :: _ => do
        let status ← pyGet row 0
        if status ≠ Value.s "success" then
          return ⟨404, J.obj [("error", J.str "User not found")]⟩
        else do
          let email ← pyGet row 2
          let full_name ← pyGet row 3
          let email_verified ← pyGet row 4
          return ⟨200, J.obj [("valid", J.bool true),
            ("user", J.obj [("id", J.int uid), ("email", toJ email),
              ("full_name", toJ full_name),
              ("email_verified", J.bool (truthy email_verified)),
              ("name", toJ full_name)])]⟩

/-- Pure value in the `Except` monad. -/
theorem except_pure_eq_ok {α : Type} (a : α) :
    (pure a : Except PyErr α) = Except.ok a := rfl

/-- C2: the login handler answers an existing email with a wrong password,
an email for which the verification procedure returns no row, and an email
for which it returns a non-`'success'` status, all with the identical
response: HTTP 401 and body `{"error": "Invalid email or password"}`. -/
theorem C2_login_enumeration_safe (chk : Value → String → Bool)
    (d : LoginBody) (llr : Except PyErr (List (List Value))) (m : String)
    (uid hashv fn ev ia st msg : Value) (rest rest2 : List Value)
    (more more2 : List (List Value))
    (h1 : pyLower (pyStrip d.email) ≠ "") (h2 : d.password ≠ "")
    (h3 : chk hashv d.password = false)
    (h4 : st ≠ Value.s "success") :
    login chk (some d) ((Value.s "success" :: Value.s m :: uid :: hashv ::
        fn :: ev :: ia :: rest) :: more) llr =
      Except.ok ⟨invalidCredentialsResp, none, none⟩ ∧
    login chk (some d) [] llr =
      Except.ok ⟨invalidCredentialsResp, none, none⟩ ∧
    login chk (some d) ((st :: msg :: rest2) :: more2) llr =
      Except.ok ⟨invalidCredentialsResp, none, none⟩ := by
  refine ⟨?_, ?_, ?_⟩ <;>
    simp [login, pyGet, except_bind_ok, except_bind_err, except_pure_eq_ok,
      h1, h2, h3, h4]

/-- Witness for C2 at a concrete wrong-password run, an empty-result run
and a failed-status run. -/
theorem C2_witness :
    login (fun _ _ => false) (some ⟨"a@b.co", "pw123456"⟩)
        [[Value.s "success", Value.s "User found", Value.i 1, Value.s "h",
          Value.s "N", Value.b true, Value.b true]] (Except.ok []) =
      Except.ok ⟨invalidCredentialsResp, none, none⟩ ∧
    login (fun _ _ => false) (some ⟨"a@b.co", "pw123456"⟩) []
        (Except.ok []) =
      Except.ok ⟨invalidCredentialsResp, none, none⟩ ∧
    login (fun _ _ => false) (some ⟨"a@b.co", "pw123456"⟩)
        [[Value.s "error", Value.s "User not found"]] (Except.ok []) =
      Except.ok ⟨invalidCredentialsResp, none, none⟩ :=
  C2_login_enumeration_safe (fun _ _ => false) ⟨"a@b.co", "pw123456"⟩
    (Except.ok []) "User found" (Value.i 1) (Value.s "h") (Value.s "N")
    (Value.b true) (Value.b true) (Value.s "error")
    (Value.s "User not found") [] [] [] [] (by decide) (by decide) rfl
    (by decide)

/-- C9: a login with matching password but an inactive account gets
HTTP 401 with the distinct body
`{"error": "Account is deactivated. Please contact support."}`, which
differs from the uniform invalid-credentials message. -/
theorem C9_inactive_account_distinct (chk : Value → String → Bool)
    (d : LoginBody) (llr : Except PyErr (List (List Value))) (m : String)
    (uid hashv fn ev ia : Value) (rest : List Value)
    (more : List (List Value))
    (h1 : pyLower (pyStrip d.email) ≠ "") (h2 : d.password ≠ "")
    (h3 : chk hashv d.password = true) (h4 : truthy ia = false) :
    login chk (some d) ((Value.s "success" :: Value.s m :: uid :: hashv ::
        fn :: ev :: ia :: rest) :: more) llr =
      Except.ok ⟨⟨401, J.obj [("error", J.str
        "Account is deactivated. Please contact support.")]⟩, none,
        none⟩ ∧
    ("Account is deactivated. Please contact support." : String) ≠
      "Invalid email or password" := by
  constructor
  · simp [login, pyGet, except_bind_ok, except_bind_err, except_pure_eq_ok,
      h1, h2, h3, h4]
  · decide

/-- Witness for C9 at a concrete inactive-account run. -/
theorem C9_witness :
    login (fun _ _ => true) (some ⟨"a@b.co", "pw123456"⟩)
        [[Value.s "success", Value.s "User found", Value.i 1, Value.s "h",
          Value.s "N", Value.b true, Value.b false]] (Except.ok []) =
      Except.ok ⟨⟨401, J.obj [("error", J.str
        "Account is deactivated. Please contact support.")]⟩, none,
        none⟩ ∧
    ("Account is deactivated. Please contact support." : String) ≠
      "Invalid email or password" :=
  C9_inactive_account_distinct (fun _ _ => true) ⟨"a@b.co", "pw123456"⟩
    (Except.ok []) "User found" (Value.i 1) (Value.s "h") (Value.s "N")
    (Value.b true) (Value.b false) [] [] (by decide) (by decide) rfl rfl

/-- C7: a successful login for the user with identifier 42 issues an
access token with identity string `"42"` carrying the email, full-name
and verification claims; `verify_token` on that identity then answers
HTTP 200 with a user object whose `id` is the integer 42 and whose
`email`, `full_name` and `email_verified` fields equal the claims
embedded at issuance. -/
theorem C7_token_roundtrip (chk : Value → String → Bool) (d : LoginBody)
    (m m2 : String) (hashv fn ev ia : Value)
    (h1 : pyLower (pyStrip d.email) ≠ "") (h2 : d.password ≠ "")
    (h3 : chk hashv d.password = true) (h4 : truthy ia = true) :
    login chk (some d)
        [[Value.s "success", Value.s m, Value.i 42, hashv, fn, ev, ia]]
        (Except.ok []) =
      Except.ok ⟨⟨200, J.obj [("message", J.str "Login successful"),
        ("access_token", J.str (tokenRender
          ⟨"42", pyLower (pyStrip d.email), fn, truthy ev⟩)),
        ("refresh_token", J.str "jwt.refresh.42"),
        ("user", J.obj [("id", toJ (Value.i 42)),
          ("email", J.str (pyLower (pyStrip d.email))),
          ("full_name", toJ fn),
          ("email_verified", J.bool (truthy ev))])]⟩,
        some ⟨"42", pyLower (pyStrip d.email), fn, truthy ev⟩,
        some "42"⟩ ∧
    verify_token (some "42")
        [[Value.s "success", Value.s m2,
          Value.s (pyLower (pyStrip d.email)), fn, ev]] =
      Except.ok ⟨200, J.obj [("valid", J.bool true),
        ("user", J.obj [("id", J.int 42),
          ("email", J.str (pyLower (pyStrip d.email))),
          ("full_name", toJ fn),
          ("email_verified", J.bool (truthy ev)),
          ("name", toJ fn)])]⟩ := by
  have h42 : pyStr (Value.i 42) = "42" := by decide
  have hp42 : pyInt "42" = some 42 := by decide
  constructor
  · simp [login, pyGet, except_bind_ok, except_bind_err, except_pure_eq_ok,
      toJ, h1, h2, h3, h4, h42]
  · simp [verify_token, hp42, pyGet, except_bind_ok, except_bind_err,
      except_pure_eq_ok, toJ]

/-- Witness for C7 at a concrete user-42 run. -/
theorem C7_witness :
    login (fun _ _ => true) (some ⟨"a@b.co", "pw123456"⟩)
        [[Value.s "success", Value.s "User found", Value.i 42,
          Value.s "h", Value.s "Jo", Value.b true, Value.b true]]
        (Except.ok []) =
      Except.ok ⟨⟨200, J.obj [("message", J.str "Login successful"),
        ("access_token", J.str (tokenRender
          ⟨"42", pyLower (pyStrip "a@b.co"), Value.s "Jo",
            truthy (Value.b true)⟩)),
        ("refresh_token", J.str "jwt.refresh.42"),
        ("user", J.obj [("id", toJ (Value.i 42)),
          ("email", J.str (pyLower (pyStrip "a@b.co"))),
          ("full_name", toJ (Value.s "Jo")),
          ("email_verified", J.bool (truthy (Value.b true)))])]⟩,
        some ⟨"42", pyLower (pyStrip "a@b.co"), Value.s "Jo",
          truthy (Value.b true)⟩,
        some "42"⟩ ∧
    verify_token (some "42")
        [[Value.s "success", Value.s "User found",
          Value.s (pyLower (pyStrip "a@b.co")), Value.s "Jo",
          Value.b true]] =
      Except.ok ⟨200, J.obj [("valid", J.bool true),
        ("user", J.obj [("id", J.int 42),
          ("email", J.str (pyLower (pyStrip "a@b.co"))),
          ("full_name", toJ (Value.s "Jo")),
          ("email_verified", J.bool (truthy (Value.b true))),
          ("name", toJ (Value.s "Jo"))])]⟩ :=
  C7_token_roundtrip (fun _ _ => true) ⟨"a@b.co", "pw123456"⟩
    "User found" "User found" (Value.s "h") (Value.s "Jo") (Value.b true)
    (Value.b true) (by decide) (by decide) rfl rfl

/-- C4: for a registration whose full name and email pass validation, a
password failing strength validation (too short, no letter, or no digit)
is rejected with HTTP 400 carrying exactly the validation message, and
the `create_user_account` procedure is never invoked (the invocation flag
of the model is `false`). -/
theorem C4_password_gate (hashFn : String → String) (d : RegBody)
    (cr : List (List Value))
    (hname : 2 ≤ (pyStrip d.fullName).length)
    (hemail : validate_email (pyLower (pyStrip d.email)) = true)
    (hpw : (validate_password d.password).fst = false) :
    register hashFn (some d) cr =
      Except.ok (⟨400, J.obj [("error",
        J.str (validate_password d.password).snd)]⟩, false) := by
  have hne : pyStrip d.fullName ≠ "" := by
    intro h
    rw [h] at hname
    simp at hname
  have hnlt : ¬ (pyStrip d.fullName).length < 2 := by omega
  have hee : pyLower (pyStrip d.email) ≠ "" := by
    intro h
    rw [h] at hemail
    exact absurd hemail (by decide)
  simp [register, hne, hnlt, hee, hemail, hpw]

/-- Witness for C4 at a concrete too-short password. -/
theorem C4_witness :
    register (fun p => p) (some ⟨"Jo Smith", "A@B.Co", "short1", false⟩)
        [] =
      Except.ok (⟨400, J.obj [("error",
        J.str (validate_password "short1").snd)]⟩, false) :=
  C4_password_gate (fun p => p) ⟨"Jo Smith", "A@B.Co", "short1", false⟩
    [] (by decide) (by decide) (by decide)

/-!
## Password reset (src/app/routes/password/route.py, `forgot_password`)
-/

/-- The JSON body of a forgot-password request. -/
structure ForgotBody where
  email : String

/-- The uniform enumeration-safe message of `forgot_password`. -/
def genericResetMsg : String :=
  "If an account with that email exists, we have sent a password reset link."

/-- Model of the `forgot_password` handler (lines 139-217).
`lookup_result` is what `get_user_by_email` returns, `token_result` what
`create_password_reset_token` returns on the active-account path.  The
reset email is only logged, and its (always-true) send flag does not
influence the response. -/
def forgot_password (data : Option ForgotBody)
    (lookup_result : List (List Value))
    (token_result : List (List Value)) : Except PyErr Resp :=
  match data with
  | none => .ok ⟨400, J.obj [("error", J.str "No data provided")]⟩
  | some d =>
    let email := pyLower (pyStrip d.email)
    if email = "" ∨ !(validate_email email) then
      .ok ⟨400, J.obj [("error", J.str
        "Valid email address is required")]⟩
    else
      match lookup_result with
      | [] => .ok ⟨200, J.obj [("message", J.str genericResetMsg),
          ("email", J.str email)]⟩
      | row :: _ => do
        let status ← pyGet row 0
        if status ≠ Value.s "success" then
          return ⟨200, J.obj [("message", J.str genericResetMsg),
            ("email", J.str email)]⟩
        else do
          let _user_id ← pyGet row 2
          let _full_name ← pyGet row 3
          let is_active ← pyGet row 4
          if !(truthy is_active) then
            return ⟨200, J.obj [("message", J.str genericResetMsg),
              ("email", J.str email)]⟩
          else
            match token_result with
            | [] => return ⟨500, J.obj [("error", J.str
                "Failed to generate reset token")]⟩
            | trow :: _ => do
              let tstatus ← pyGet trow 0
              if tstatus ≠ Value.s "success" then
                return ⟨500, J.obj [("error", J.str
                  "Failed to generate reset token")]⟩
              else
                return ⟨200, J.obj [("message", J.str genericResetMsg),
                  ("email", J.str email)]⟩

/-!
## Premium checkout (src/app/routes/premium/route.py,
`create_checkout_session`)
-/

/-- Python `int(x)` truncation of a numeric value toward zero. -/
def pyTrunc (q : ℚ) : Int := if 0 ≤ q then Rat.floor q else -(Rat.floor (-q))

/-- Model of the line-item construction of `create_checkout_session`
(lines 295-357), after the `if not plan_type` check of lines 266-268:
each line item is represented by its `unit_amount` in cents.  A
validation failure carries the 400 response.  `custom_product_count` is
falsy when absent or zero. -/
def create_checkout_line_items (plan_type : Option String)
    (custom_product_count : Option Int) (include_ai_enhancement : Bool) :
    Except Resp (List Int) :=
  let withAi : List Int → List Int := fun items =>
    items ++ (if include_ai_enhancement then [5000] else [])
  match plan_type with
  | none => .error ⟨400, J.obj [("error", J.str "Plan type is required")]⟩
  | some p =>
    if p = "" then
      .error ⟨400, J.obj [("error", J.str "Plan type is required")]⟩
    else if p = "pay_as_you_go" then
      match custom_product_count with
      | none => .error ⟨400, J.obj [("error", J.str
          "Product count is required for pay-as-you-go plan")]⟩
      | some n =>
        if n = 0 ∨ n < 1 then
          .error ⟨400, J.obj [("error", J.str
            "Product count is required for pay-as-you-go plan")]⟩
        else
          let total_price : ℚ := (n : ℚ) * 5
          .ok (withAi [pyTrunc (total_price * 100)])
    else if p = "unlimited" then
      .ok (withAi [14500])
    else
      .error ⟨400, J.obj [("error", J.str "Invalid plan type")]⟩

/-!
## Broad handler catches (error taxonomy, C3)
-/

/-- Whether `pre` is a prefix of `s` (Python `str.startswith`). -/
def listPrefixOf : List Char → List Char → Bool
  | [], _ => true
  | _ :: _, [] => false
  | a :: as, b :: bs => (a == b) && listPrefixOf as bs

/-- Python `str.startswith(pre)`. -/
def pyStartsWith (s pre : String) : Bool := listPrefixOf pre.data s.data

/-- Whether `pat` occurs inside `text` (Python `in` on strings). -/
def containsChars (text pat : List Char) : Bool :=
  match text with
  | [] => pat.isEmpty
  | _ :: rest => listPrefixOf pat text || containsChars rest pat

/-- Python `sub in s`. -/
def containsSub (s sub : String) : Bool := containsChars s.data sub.data


/-- The broad catch of `get_user_products`
(src/app/routes/dashboard/route.py lines 223-232): the 500 body carries
the exception text under `debug` and the traceback under `traceback`. -/
def get_user_products_catch (e tb : String) : Resp :=
  ⟨500, J.obj [("error", J.str "Failed to load products"),
    ("debug", J.str e), ("traceback", J.str tb)]⟩

/-- The broad catch of `handle_donation_webhook`
(src/app/routes/donation/route.py lines 251-255): the 500 body's error
field is the exception text itself. -/
def handle_donation_webhook_catch (e : String) : Resp :=
  ⟨500, J.obj [("error", J.str e)]⟩

/-- The broad catch of `create_donation_session`
(src/app/routes/donation/route.py lines 74-77): the exception text is
appended to the error message. -/
def create_donation_session_catch (e : String) : Resp :=
  ⟨500, J.obj [("error", J.str ("Internal server error: " ++ e))]⟩

/-- The broad catch of `login` (src/app/routes/auth/route.py lines
241-247): a fixed generic body. -/
def login_catch : Resp :=
  ⟨500, J.obj [("error", J.str "Internal server error during login")]⟩

/-- The broad catch of `register` (src/app/routes/auth/route.py lines
120-124): a fixed generic body. -/
def register_catch : Resp :=
  ⟨500, J.obj [("error", J.str
    "Internal server error during registration")]⟩

mutual

/-- Whether the string `s` occurs as a substring of some string leaf of a
JSON tree. -/
def jMentions (s : String) : J → Bool
  | .null => false
  | .str t => containsSub t s
  | .int _ => false
  | .num _ => false
  | .bool _ => false
  | .arr xs => jMentionsArr s xs
  | .obj fs => jMentionsObj s fs

/-- `jMentions` over an array. -/
def jMentionsArr (s : String) : List J → Bool
  | [] => false
  | x :: xs => jMentions s x || jMentionsArr s xs

/-- `jMentions` over object fields. -/
def jMentionsObj (s : String) : List (String × J) → Bool
  | [] => false
  | f :: fs => jMentions s f.snd || jMentionsObj s fs

end

/-!
## Add-product and read fallback (src/app/routes/dashboard/route.py)
-/

/-- Split a URL's character list at the first `"://"`, giving the scheme
part and the remainder (models the `urlparse` split used here). -/
def splitOnSep : List Char → Option (List Char × List Char)
  | [] => none
  | ':' :: '/' :: '/' :: rest => some ([], rest)
  | c :: rest => (splitOnSep rest).map (fun p => (c :: p.1, p.2))

/-- Model of `validate_url` (lines 24-30): true when `urlparse` yields a
nonempty scheme and a nonempty netloc (the part between `"://"` and the
next `/`). -/
def validate_url (url : String) : Bool :=
  match splitOnSep url.data with
  | none => false
  | some (sch, rest) =>
    !sch.isEmpty && !((rest.takeWhile (fun c => c != '/')).isEmpty)

/-- Python `str.replace("www.", "")`: drop every occurrence. -/
def removeWWW : List Char → List Char
  | 'w' :: 'w' :: 'w' :: '.' :: rest => removeWWW rest
  | c :: rest => c :: removeWWW rest
  | [] => []

/-- Model of `extract_product_info` (lines 32-48): lower-case the URL,
take the netloc, strip `www.`, and map known store domains to
`(store, title)` pairs. -/
def extract_product_info (url : String) : String × String :=
  let lowered := pyLower url
  let netloc : List Char :=
    match splitOnSep lowered.data with
    | none => []
    | some (_, rest) => rest.takeWhile (fun c => c != '/')
  let domain := String.mk (removeWWW netloc)
  if containsSub domain "amazon." then ("Amazon", "Amazon Product")
  else if containsSub domain "ebay." then ("eBay", "eBay Item")
  else if containsSub domain "bestbuy." then ("Best Buy", "Best Buy Product")
  else if containsSub domain "target." then ("Target", "Target Product")
  else if containsSub domain "walmart." then ("Walmart", "Walmart Product")
  else ("Other", "Product from " ++ domain)

/-- The JSON body of an add-product request, after `data.get` defaults. -/
structure AddBody where
  url : String
  title : String
  discord_webhook_url : String
  sms_notifications_enabled : Bool

/-- A recorded procedure invocation: name and the parameter keys
passed. -/
structure ProcCall where
  name : String
  params : List String
deriving DecidableEq, Repr

/-- The enhanced add call (lines 283-289) passes the webhook URL and the
SMS flag. -/
def addEnhancedCall : ProcCall :=
  ⟨"add_user_product_with_webhook",
    ["p_user_id", "p_product_url", "p_product_title",
     "p_discord_webhook_url", "p_sms_notifications_enabled"]⟩

/-- The fallback add call (lines 294-298) passes only user, URL and
title. -/
def addOldCall : ProcCall :=
  ⟨"add_user_product", ["p_user_id", "p_product_url", "p_product_title"]⟩

/-- The tail of `add_product` (lines 301-327): interpret the procedure
result rows into the HTTP response.  An out-of-range access is caught by
the handler's broad catch, whose body coincides with the explicit
empty-result 500. -/
def add_product_finish (uid : Int) (result : List (List Value))
    (url title : String) : Resp :=
  match result with
  | [] => ⟨500, J.obj [("error", J.str "Failed to add product")]⟩
  | row :: _ =>
    match row[0]?, row[1]? with
    | some status, some message =>
      if status = Value.s "success" then
        let pid : J := match row[2]? with
          | some v => toJ v
          | none => J.null
        ⟨201, J.obj [("message", toJ message), ("product_id", pid),
          ("debug", J.obj [("user_id", J.int uid), ("url", J.str url),
            ("title", J.str title)])]⟩
      else ⟨400, J.obj [("error", toJ message)]⟩
    | _, _ => ⟨500, J.obj [("error", J.str "Failed to add product")]⟩

/-- Model of the `add_product` handler (lines 235-334).  `enhanced` and
`old` are the outcomes the `add_user_product_with_webhook` and
`add_user_product` procedures would have; the second component records
which procedures were invoked, in order. -/
def add_product (uid : Int) (data : Option AddBody)
    (enhanced old : Except PyErr (List (List Value))) :
    Resp × List ProcCall :=
  match data with
  | none => (⟨400, J.obj [("error", J.str "No data provided")]⟩, [])
  | some d =>
    let url := pyStrip d.url
    let title0 := pyStrip d.title
    let wh := pyStrip d.discord_webhook_url
    if url = "" then
      (⟨400, J.obj [("error", J.str "Product URL is required")]⟩, [])
    else if !(validate_url url) then
      (⟨400, J.obj [("error", J.str "Invalid URL format")]⟩, [])
    else if wh != "" &&
        !(pyStartsWith wh "https://discord.com/api/webhooks/" ||
          pyStartsWith wh "https://discordapp.com/api/webhooks/") then
      (⟨400, J.obj [("error", J.str "Invalid Discord webhook URL format")]⟩,
        [])
    else
      let title := if title0 = "" then (extract_product_info url).2
        else title0
      match enhanced with
      | .ok result =>
        (add_product_finish uid result url title, [addEnhancedCall])
      | .error _ =>
        match old with
        | .ok result =>
          (add_product_finish uid result url title,
            [addEnhancedCall, addOldCall])
        | .error _ =>
          (⟨500, J.obj [("error", J.str "Failed to add product")]⟩,
            [addEnhancedCall, addOldCall])

/-- The read-side fallback of `get_user_products` (lines 69-94): try the
enhanced procedure, fall back to the old one on any exception, and treat
a second failure as an absent result.  Returns the procedures invoked and
the rows the handler goes on to parse. -/
def get_user_products_calls
    (enhanced old : Except PyErr (List (List Value))) :
    List String × Option (List (List Value)) :=
  match enhanced with
  | .ok r => (["get_user_products_with_data"], some r)
  | .error _ =>
    match old with
    | .ok r => (["get_user_products_with_data", "get_user_products"],
        some r)
    | .error _ => (["get_user_products_with_data", "get_user_products"],
        none)

/-- A character list is a prefix of itself. -/
theorem listPrefixOf_self (cs : List Char) : listPrefixOf cs cs = true := by
  induction cs with
  | nil => rfl
  | cons a as ih => simp [listPrefixOf, ih]

/-- A character list occurs in itself. -/
theorem containsChars_self (cs : List Char) :
    containsChars cs cs = true := by
  cases cs with
  | nil => rfl
  | cons a as => simp [containsChars, listPrefixOf_self]

/-- A suffix occurs in the concatenation. -/
theorem containsChars_append (xs ys : List Char) :
    containsChars (xs ++ ys) ys = true := by
  induction xs with
  | nil => simp [containsChars_self]
  | cons x xs ih => simp [containsChars, ih]

/-- A string occurs in itself. -/
theorem containsSub_self (s : String) : containsSub s s = true :=
  containsChars_self s.data

/-- A string occurs in any string it is appended to. -/
theorem containsSub_append (a b : String) :
    containsSub (a ++ b) b = true := by
  have h : (a ++ b).data = a.data ++ b.data := by
    simp [String.data_append]
  simp [containsSub, h, containsChars_append]

/-- C6: the forgot-password handler answers an unknown email, an email
with a failed lookup status, an inactive account, and an active account
(with the reset token stored) all with the identical HTTP 200 response
carrying the generic message, so the response never reveals whether the
account exists or is active. -/
theorem C6_forgot_password_enumeration_safe (d : ForgotBody)
    (tr : List (List Value)) (st : Value) (rest : List Value)
    (more : List (List Value)) (m : String) (uid fn ia0 ia1 : Value)
    (trest : List Value) (tmore : List (List Value))
    (hv : validate_email (pyLower (pyStrip d.email)) = true)
    (hst : st ≠ Value.s "success")
    (h0 : truthy ia0 = false) (_h1 : truthy ia1 = true) :
    forgot_password (some d) [] tr =
      Except.ok ⟨200, J.obj [("message", J.str genericResetMsg),
        ("email", J.str (pyLower (pyStrip d.email)))]⟩ ∧
    forgot_password (some d) ((st :: rest) :: more) tr =
      Except.ok ⟨200, J.obj [("message", J.str genericResetMsg),
        ("email", J.str (pyLower (pyStrip d.email)))]⟩ ∧
    forgot_password (some d)
        [[Value.s "success", Value.s m, uid, fn, ia0]] tr =
      Except.ok ⟨200, J.obj [("message", J.str genericResetMsg),
        ("email", J.str (pyLower (pyStrip d.email)))]⟩ ∧
    forgot_password (some d)
        [[Value.s "success", Value.s m, uid, fn, ia1]]
        ((Value.s "success" :: trest) :: tmore) =
      Except.ok ⟨200, J.obj [("message", J.str genericResetMsg),
        ("email", J.str (pyLower (pyStrip d.email)))]⟩ := by
  have hee : pyLower (pyStrip d.email) ≠ "" := by
    intro h
    rw [h] at hv
    exact absurd hv (by decide)
  refine ⟨?_, ?_, ?_, ?_⟩ <;>
    simp [forgot_password, pyGet, except_bind_ok, except_bind_err,
      except_pure_eq_ok, hee, hv, hst, h0]

/-- Witness for C6 at a concrete unknown email, failed lookup, inactive
account and active account. -/
theorem C6_witness :
    forgot_password (some ⟨"a@b.co"⟩) [] [] =
      Except.ok ⟨200, J.obj [("message", J.str genericResetMsg),
        ("email", J.str (pyLower (pyStrip "a@b.co")))]⟩ ∧
    forgot_password (some ⟨"a@b.co"⟩)
        [[Value.s "error", Value.s "User not found"]] [] =
      Except.ok ⟨200, J.obj [("message", J.str genericResetMsg),
        ("email", J.str (pyLower (pyStrip "a@b.co")))]⟩ ∧
    forgot_password (some ⟨"a@b.co"⟩)
        [[Value.s "success", Value.s "User found", Value.i 1,
          Value.s "Jo", Value.b false]] [] =
      Except.ok ⟨200, J.obj [("message", J.str genericResetMsg),
        ("email", J.str (pyLower (pyStrip "a@b.co")))]⟩ ∧
    forgot_password (some ⟨"a@b.co"⟩)
        [[Value.s "success", Value.s "User found", Value.i 1,
          Value.s "Jo", Value.b true]]
        [[Value.s "success", Value.s "Token created"]] =
      Except.ok ⟨200, J.obj [("message", J.str genericResetMsg),
        ("email", J.str (pyLower (pyStrip "a@b.co")))]⟩ :=
  C6_forgot_password_enumeration_safe ⟨"a@b.co"⟩ [] (Value.s "error")
    [Value.s "User not found"] [] "User found" (Value.i 1) (Value.s "Jo")
    (Value.b false) (Value.b true) [Value.s "Token created"] []
    (by decide) (by decide) rfl rfl

/-- Bridge between `Rat.floor` and the integer it casts from. -/
theorem rat_floor_intCast (z : ℤ) : Rat.floor ((z : ℚ)) = z := by
  simp [Rat.floor_def', Rat.num_intCast, Rat.den_intCast]

/-- C8: for `pay_as_you_go` with count `n ≥ 1` the single plan line item
is `int(n * 5.00 * 100)` cents, which equals `500 * n`; for `unlimited`
it is the fixed 14500 cents; a missing or sub-1 count is rejected with
the 400 response; and the AI add-on appends one separate 5000-cent line
item in both plans. -/
theorem C8_checkout_amounts :
    (∀ (n : Int) (ai : Bool), 1 ≤ n →
      create_checkout_line_items (some "pay_as_you_go") (some n) ai =
        Except.ok ([pyTrunc ((n : ℚ) * 5 * 100)] ++
          (if ai then [5000] else [])) ∧
      pyTrunc ((n : ℚ) * 5 * 100) = 500 * n) ∧
    (∀ ai, create_checkout_line_items (some "unlimited") none ai =
      Except.ok ([14500] ++ (if ai then [5000] else []))) ∧
    (∀ ai, create_checkout_line_items (some "pay_as_you_go") none ai =
      Except.error ⟨400, J.obj [("error", J.str
        "Product count is required for pay-as-you-go plan")]⟩) ∧
    (∀ (n : Int) (ai : Bool), n < 1 →
      create_checkout_line_items (some "pay_as_you_go") (some n) ai =
      Except.error ⟨400, J.obj [("error", J.str
        "Product count is required for pay-as-you-go plan")]⟩) := by
  refine ⟨?_, ?_, ?_, ?_⟩
  · intro n ai hn
    have hno : ¬(n = 0 ∨ n < 1) := by omega
    constructor
    · simp [create_checkout_line_items, hno]
    · have hcast : ((n : ℚ) * 5 * 100) = ((500 * n : ℤ) : ℚ) := by
        push_cast
        ring
      have hpos : (0 : ℚ) ≤ ((500 * n : ℤ) : ℚ) := by
        have : (0 : ℤ) ≤ 500 * n := by omega
        exact_mod_cast this
      rw [hcast]
      simp only [pyTrunc]
      rw [if_pos hpos, rat_floor_intCast]
  · intro ai
    rfl
  · intro ai
    rfl
  · intro n ai hn
    have hor : (n = 0 ∨ n < 1) := Or.inr hn
    simp [create_checkout_line_items, hor, hn]

/-- Witness for C8 at count 3 with the add-on, `unlimited` without it, a
missing count, and count 0. -/
theorem C8_witness :
    create_checkout_line_items (some "pay_as_you_go") (some 3) true =
      Except.ok ([pyTrunc ((3 : ℚ) * 5 * 100)] ++
        (if true then [5000] else [])) ∧
    pyTrunc ((3 : ℚ) * 5 * 100) = 500 * 3 ∧
    create_checkout_line_items (some "unlimited") none false =
      Except.ok ([14500] ++ (if false then [5000] else [])) ∧
    create_checkout_line_items (some "pay_as_you_go") none true =
      Except.error ⟨400, J.obj [("error", J.str
        "Product count is required for pay-as-you-go plan")]⟩ ∧
    create_checkout_line_items (some "pay_as_you_go") (some 0) false =
      Except.error ⟨400, J.obj [("error", J.str
        "Product count is required for pay-as-you-go plan")]⟩ :=
  ⟨(C8_checkout_amounts.1 3 true (by decide)).1,
   (C8_checkout_amounts.1 3 true (by decide)).2,
   C8_checkout_amounts.2.1 false,
   C8_checkout_amounts.2.2.1 true,
   C8_checkout_amounts.2.2.2 0 false (by decide)⟩

/-- C3 counterexample: an unexpected exception in `get_user_products` is
answered with a body that contains the exception's text (the `debug`
field) and the stack trace (the `traceback` field), and the donation
webhook's 500 body is the exception text itself — refuting that the body
only ever carries a fixed generic message. -/
theorem C3_counterexample :
    jMentions "division by zero"
      (get_user_products_catch "division by zero"
        "Traceback (most recent call last): ZeroDivisionError").body =
      true ∧
    jMentions "Traceback (most recent call last): ZeroDivisionError"
      (get_user_products_catch "division by zero"
        "Traceback (most recent call last): ZeroDivisionError").body =
      true ∧
    jMentions "division by zero"
      (handle_donation_webhook_catch "division by zero").body = true ∧
    ("division by zero" : String) ≠ "Failed to load products" := by
  refine ⟨rfl, rfl, rfl, by decide⟩

/-- C3 amended: handlers catch unexpected exceptions broadly and answer
500; `login` and `register` return fixed generic bodies whose only text
is the generic message, but `get_user_products` additionally ships the
exception text and the traceback (under `debug` and `traceback` beside
its fixed `error` message), and the donation endpoints ship the
exception text inside the `error` field itself. -/
theorem C3_amended_thm (e tb : String) :
    ((get_user_products_catch e tb).status = 500 ∧
      jMentions "Failed to load products"
        (get_user_products_catch e tb).body = true ∧
      jMentions e (get_user_products_catch e tb).body = true ∧
      jMentions tb (get_user_products_catch e tb).body = true) ∧
    jMentions e (handle_donation_webhook_catch e).body = true ∧
    jMentions e (create_donation_session_catch e).body = true ∧
    (∀ x, jMentions x login_catch.body =
      containsSub "Internal server error during login" x) ∧
    (∀ x, jMentions x register_catch.body =
      containsSub "Internal server error during registration" x) := by
  refine ⟨⟨rfl, ?_, ?_, ?_⟩, ?_, ?_, ?_, ?_⟩ <;>
    simp [get_user_products_catch, handle_donation_webhook_catch,
      create_donation_session_catch, login_catch, register_catch,
      jMentions, jMentionsObj, containsSub_self, containsSub_append]

/-- C10: when the enhanced add procedure raises, `add_product` silently
retries with `add_user_product`, whose parameter keys omit the Discord
webhook URL and the SMS flag; the response after the fallback is
identical to the response the enhanced path would give for the same
rows; and the read side falls back from `get_user_products_with_data` to
`get_user_products` the same way. -/
theorem C10_silent_fallback (uid : Int) (d : AddBody) (e e2 : PyErr)
    (rows : List (List Value)) (old2 : Except PyErr (List (List Value)))
    (h1 : pyStrip d.url ≠ "")
    (h2 : validate_url (pyStrip d.url) = true)
    (h3 : pyStartsWith (pyStrip d.discord_webhook_url)
      "https://discord.com/api/webhooks/" = true) :
    (add_product uid (some d) (Except.error e) (Except.ok rows)).fst =
      (add_product uid (some d) (Except.ok rows) old2).fst ∧
    (add_product uid (some d) (Except.error e) (Except.ok rows)).snd =
      [addEnhancedCall, addOldCall] ∧
    addOldCall.name = "add_user_product" ∧
    "p_discord_webhook_url" ∉ addOldCall.params ∧
    "p_sms_notifications_enabled" ∉ addOldCall.params ∧
    get_user_products_calls (Except.error e2) (Except.ok rows) =
      (["get_user_products_with_data", "get_user_products"],
        some rows) := by
  refine ⟨?_, ?_, rfl, by decide, by decide, rfl⟩ <;>
    simp [add_product, h1, h2, h3]

/-- Witness for C10 at a concrete request whose enhanced call fails. -/
theorem C10_witness :
    (add_product 7 (some ⟨" https://amazon.com/item ", "My Title",
        "https://discord.com/api/webhooks/123", true⟩)
        (Except.error PyErr.typeError)
        (Except.ok [[Value.s "success",
          Value.s "Product added successfully", Value.i 99]])).fst =
      (add_product 7 (some ⟨" https://amazon.com/item ", "My Title",
        "https://discord.com/api/webhooks/123", true⟩)
        (Except.ok [[Value.s "success",
          Value.s "Product added successfully", Value.i 99]])
        (Except.error PyErr.typeError)).fst ∧
    (add_product 7 (some ⟨" https://amazon.com/item ", "My Title",
        "https://discord.com/api/webhooks/123", true⟩)
        (Except.error PyErr.typeError)
        (Except.ok [[Value.s "success",
          Value.s "Product added successfully", Value.i 99]])).snd =
      [addEnhancedCall, addOldCall] ∧
    addOldCall.name = "add_user_product" ∧
    "p_discord_webhook_url" ∉ addOldCall.params ∧
    "p_sms_notifications_enabled" ∉ addOldCall.params ∧
    get_user_products_calls (Except.error PyErr.valueError)
        (Except.ok [[Value.s "success",
          Value.s "Product added successfully", Value.i 99]]) =
      (["get_user_products_with_data", "get_user_products"],
        some [[Value.s "success", Value.s "Product added successfully",
          Value.i 99]]) :=
  C10_silent_fallback 7
    ⟨" https://amazon.com/item ", "My Title",
      "https://discord.com/api/webhooks/123", true⟩
    PyErr.typeError PyErr.valueError
    [[Value.s "success", Value.s "Product added successfully",
      Value.i 99]]
    (Except.error PyErr.typeError) (by decide) (by decide) (by decide)
